import Mathlib

/-!
Summer admin panel: settings merge, path normalisation and template variables.

A shallow embedding of `main.go` (package `summer`): the `Settings` and `Panel`
records, `Create` up to the call of `panel.init()`, the page constructors
`AddPage` / `AddOpenPage`, `Panel.correctPath`, `Panel.setVariables` and the
target of the root redirect registered by `Panel.init`.

Go strings are immutable byte sequences and are modelled as lists of bytes.
A Go run-time panic (index out of range, assignment to an entry of a nil map)
is modelled by the result `none`.
-/

namespace Summer

/-! ## Go strings -/

/-- A Go `string`: a sequence of bytes. -/
abbrev GoString := List UInt8

/-- The bytes of a string literal of the source (UTF-8, as the Go compiler stores it). -/
def str (s : String) : GoString := s.toUTF8.data.toList

/-- The byte literal `'/'`. -/
def slash : UInt8 := 47

/-- Go `s[i]` on a string: the byte at index `i`, a panic when `i` is out of range. -/
def index (s : GoString) (i : Nat) : Option UInt8 := s.get? i

/-- Go `s[:n]` on a string: the first `n` bytes, a panic when `n` exceeds the length. -/
def sliceTo (s : GoString) (n : Nat) : Option GoString :=
  if n ≤ s.length then some (s.take n) else none

/-! ## Data model -/

/-- The type `Menu` is declared outside `main.go`; `Title` is the one field `main.go` sets. -/
structure Menu where
  Title : GoString
deriving DecidableEq

/-- A dynamically typed value (`interface{}`) stored in `Settings.Vars`. -/
inductive Value where
  /-- The value `&panel` stored by `setVariables` -/
  | panelRef
  /-- A `string` value -/
  | string (s : GoString)
  /-- A `*Menu` value (`none` is the nil pointer) -/
  | menu (m : Option Menu)
  /-- Any other value supplied by the caller, identified by a tag -/
  | other (tag : Nat)
deriving DecidableEq

/-- The entries of a non-nil `map[string]interface{}`: at most one entry per key is visible,
the first one. -/
abbrev VarMap := List (GoString × Value)

/-- The entry of a non-nil map under a key, if there is one. -/
def VarMap.get : VarMap → GoString → Option Value
  | [], _ => none
  | (k, v) :: rest, key => if k = key then some v else VarMap.get rest key

/-- Go `m[key]` read on a map value (`none` as the map is the nil map): the entry, or `none`
when there is no entry (Go then yields the zero value `nil`). -/
def mapGet : Option VarMap → GoString → Option Value
  | none, _ => none
  | some m, key => VarMap.get m key

/-- The entries of a map after `m[key] = v` on a non-nil map. -/
def VarMap.set : VarMap → GoString → Value → VarMap
  | [], key, v => [(key, v)]
  | (k, w) :: rest, key, v =>
    if k = key then (key, v) :: rest else (k, w) :: VarMap.set rest key v

/-- Go `m[key] = v`: a panic on the nil map. -/
def mapAssign : Option VarMap → GoString → Value → Option (Option VarMap)
  | none, _, _ => none
  | some m, key, v => some (some (VarMap.set m key v))

/-- A `*gin.Engine`: the engines `Create` builds, or one handed in by the caller. -/
inductive GinEngine where
  /-- The result of `gin.Default()` -/
  | Default
  /-- The result of `gin.New()` -/
  | New
  /-- An engine built by the caller -/
  | custom (id : Nat)
deriving DecidableEq

/-- A `func()` value: the empty function literal of `Create`, or a caller's function. -/
inductive Func where
  /-- The literal `func() {}` -/
  | noop
  /-- A function of the caller -/
  | custom (id : Nat)
deriving DecidableEq

/-- The struct `Settings`; a nil map, slice, function or pointer is `none`. -/
structure Settings where
  Port : Nat := 0
  Title : GoString := []
  AuthSalt : GoString := []
  AuthPrefix : GoString := []
  DefaultPage : GoString := []
  Path : GoString := []
  Views : GoString := []
  ViewsDoT : GoString := []
  Files : GoString := []
  DBName : GoString := []
  UsersCollection : GoString := []
  NotifyCollection : GoString := []
  AICollection : GoString := []
  Debug : Bool := false
  Vars : Option VarMap := none
  TFuncMap : Option (List (GoString × Nat)) := none
  FirstStart : Option Func := none
  DisableAuth : Bool := false
  DisableFirstStart : Bool := false
  JS : Option (List GoString) := none
  CSS : Option (List GoString) := none
  RouterGroup : Option Nat := none
  Engine : Option GinEngine := none
deriving DecidableEq

/-- The type `GroupsList` is declared outside `main.go`. -/
structure GroupsList where
deriving DecidableEq

/-- The type `ModuleList` is declared outside `main.go`. -/
structure ModuleList where
deriving DecidableEq

/-- The type `Users` is declared outside `main.go`. -/
structure Users where
deriving DecidableEq

/-- The type `auth` is declared outside `main.go`. -/
structure auth where
deriving DecidableEq

/-- The type `menuList` is declared outside `main.go`. -/
structure menuList where
deriving DecidableEq

/-- The struct `Panel`, which embeds `Settings`; a nil pointer is `none`. -/
structure Panel extends Settings where
  RootMenu : Option Menu := none
  MainMenu : Option Menu := none
  DropMenu : Option Menu := none
  Groups : Option GroupsList := none
  Modules : Option ModuleList := none
  Users : Option Users := none
  auth : Option auth := none
  menuList : Option menuList := none
deriving DecidableEq

/-! ## `Panel.correctPath` -/

/-- The method `Panel.correctPath`; `none` is an index-out-of-range panic. -/
def correctPath (panel : Panel) : Option Panel := do
  let panel ←
    (if panel.Path.length > 0 then do
      let last ← index panel.Path (panel.Path.length - 1)
      let panel ←
        (if last = slash then do
          let path ← sliceTo panel.Path (panel.Path.length - 1)
          pure { panel with Path := path }
        else pure panel)
      let first ← index panel.Path 0
      pure (if first ≠ slash then { panel with Path := str "/" ++ panel.Path } else panel)
    else pure panel)
  if panel.DefaultPage.length = 0 then
    pure { panel with DefaultPage := str "/" ++ panel.DefaultPage }
  else do
    let first ← index panel.DefaultPage 0
    pure (if first ≠ slash then { panel with DefaultPage := str "/" ++ panel.DefaultPage }
      else panel)

/-- The target of the redirect that `Panel.init` registers on the route `/` of the panel's
router group: `panel.Path + panel.DefaultPage`. -/
def redirectTarget (panel : Panel) : GoString := panel.Path ++ panel.DefaultPage

/-! ## `Panel.setVariables` -/

/-- The method `Panel.setVariables`; `none` is a panic (assignment to an entry of a nil map). -/
def setVariables (panel : Panel) : Option Panel := do
  let panel := if panel.Vars = none then { panel with Vars := some [] } else panel
  let panel := { panel with Vars := ← mapAssign panel.Vars (str "panel") Value.panelRef }
  let panel := { panel with Vars := ← mapAssign panel.Vars (str "path") (Value.string panel.Path) }
  let panel := { panel with Vars := ← mapAssign panel.Vars (str "title") (Value.string panel.Title) }
  let panel := { panel with Vars := ← mapAssign panel.Vars (str "mainMenu") (Value.menu panel.MainMenu) }
  let panel := { panel with Vars := ← mapAssign panel.Vars (str "dropMenu") (Value.menu panel.DropMenu) }
  pure panel

/-- The two consecutive statements `panel.correctPath()` and `panel.setVariables()` of
`Panel.init`. -/
def initPathVars (panel : Panel) : Option Panel := do
  let panel ← correctPath panel
  setVariables panel

/-- The keys that `setVariables` writes. -/
def reservedKeys : List GoString :=
  [str "panel", str "path", str "title", str "mainMenu", str "dropMenu"]

/-! ## `Create` -/

/-- Modelled from the spec: `extend` is defined outside `main.go`. The spec describes the merge
of `Create` as a "field-by-field override: a zero/unset field in caller settings keeps the
default", so every field of the first argument is replaced by the field of the second one unless
that one holds the zero value of its type. -/
def extend (dst src : Settings) : Settings where
  Port := if src.Port = 0 then dst.Port else src.Port
  Title := if src.Title = [] then dst.Title else src.Title
  AuthSalt := if src.AuthSalt = [] then dst.AuthSalt else src.AuthSalt
  AuthPrefix := if src.AuthPrefix = [] then dst.AuthPrefix else src.AuthPrefix
  DefaultPage := if src.DefaultPage = [] then dst.DefaultPage else src.DefaultPage
  Path := if src.Path = [] then dst.Path else src.Path
  Views := if src.Views = [] then dst.Views else src.Views
  ViewsDoT := if src.ViewsDoT = [] then dst.ViewsDoT else src.ViewsDoT
  Files := if src.Files = [] then dst.Files else src.Files
  DBName := if src.DBName = [] then dst.DBName else src.DBName
  UsersCollection := if src.UsersCollection = [] then dst.UsersCollection else src.UsersCollection
  NotifyCollection := if src.NotifyCollection = [] then dst.NotifyCollection else src.NotifyCollection
  AICollection := if src.AICollection = [] then dst.AICollection else src.AICollection
  Debug := if src.Debug = false then dst.Debug else src.Debug
  Vars := if src.Vars = none then dst.Vars else src.Vars
  TFuncMap := if src.TFuncMap = none then dst.TFuncMap else src.TFuncMap
  FirstStart := if src.FirstStart = none then dst.FirstStart else src.FirstStart
  DisableAuth := if src.DisableAuth = false then dst.DisableAuth else src.DisableAuth
  DisableFirstStart :=
    if src.DisableFirstStart = false then dst.DisableFirstStart else src.DisableFirstStart
  JS := if src.JS = none then dst.JS else src.JS
  CSS := if src.CSS = none then dst.CSS else src.CSS
  RouterGroup := if src.RouterGroup = none then dst.RouterGroup else src.RouterGroup
  Engine := if src.Engine = none then dst.Engine else src.Engine

/-- Modelled from the spec: `createMenuList` is defined outside `main.go`; `Create` only needs
that it returns a fresh menu list. -/
def createMenuList : Option menuList := some {}

/-- Modelled from the spec: `createModuleList` is defined outside `main.go`; the spec says that
`Create` constructs an "empty ModuleList". -/
def createModuleList : Option ModuleList := some {}

/-- The engine that `Create` builds: `gin.Default()` in debug mode, `gin.New()` otherwise. -/
def Create.engine (s : Settings) : GinEngine :=
  if s.Debug then GinEngine.Default else GinEngine.New

/-- The built-in settings: the `Settings` literal inside the `Panel` literal of `Create`. -/
def Create.defaults (engine : GinEngine) : Settings where
  Port := 8080
  AuthSalt := str "+Af761"
  AuthPrefix := str "adm-summer-"
  Title := str "Summer Panel"
  Path := str ""
  Views := str "templates/main"
  ViewsDoT := str "templates/doT.js"
  Files := str "files"
  DBName := str "summerPanel"
  DefaultPage := str "/settings"
  UsersCollection := str "admins"
  AICollection := str "ai"
  Vars := some []
  FirstStart := some Func.noop
  Engine := some engine

/-- The function `Create` up to the call `panel.init()`: the `Panel` literal, then
`extend(&panel.Settings, &s)`. -/
def Create.beforeInit (s : Settings) : Panel :=
  let panel : Panel :=
    { toSettings := Create.defaults (Create.engine s)
      menuList := createMenuList
      Modules := createModuleList
      RootMenu := some { Title := str "[Root]" }
      MainMenu := some { Title := str "[Main]" }
      DropMenu := some { Title := str "[Drop]" }
      Groups := some {}
      Users := some {}
      auth := some {} }
  { panel with toSettings := extend panel.toSettings s }

/-! ## `AddModule`, `AddPage`, `AddOpenPage` -/

/-- Modelled from the spec: the struct `ModuleSettings` is declared outside `main.go`. The spec
lists its fields as `Name`, `Title`, `MenuRef`, `DisableAuth`, `OriginTemplate`; `main.go` names
the menu field `Menu`. The defaults are the Go zero values. -/
structure ModuleSettings where
  Name : GoString := []
  Title : GoString := []
  Menu : Option Menu := none
  DisableAuth : Bool := false
  OriginTemplate : Bool := false
deriving DecidableEq

/-- The type `Module` is declared outside `main.go`; `main.go` only builds `&Module{}`. -/
structure Module where
deriving DecidableEq

/-- A value of the interface `Simple`: a `*Module`, or a module type of the embedder. -/
inductive Simple where
  /-- A pointer to a `Module` -/
  | module (m : Module)
  /-- A module of the embedder -/
  | custom (id : Nat)
deriving DecidableEq

/-- The method `Panel.AddModule`. The function `createModule` is defined outside `main.go` and
is a parameter here, with an arbitrary type of results. -/
def AddModule {ρ : Type} (createModule : Panel → ModuleSettings → Simple → ρ)
    (panel : Panel) (settings : ModuleSettings) (s : Simple) : ρ :=
  createModule panel settings s

/-- The method `Panel.AddPage`; `originTemplate` is the variadic argument. -/
def AddPage {ρ : Type} (createModule : Panel → ModuleSettings → Simple → ρ)
    (panel : Panel) (name title : GoString) (menu : Option Menu)
    (originTemplate : List Bool) : ρ :=
  let settings : ModuleSettings := { Name := name, Title := title, Menu := menu }
  let settings :=
    if h : originTemplate.length > 0 then
      { settings with OriginTemplate := originTemplate[0] }
    else settings
  AddModule createModule panel settings (Simple.module {})

/-- The method `Panel.AddOpenPage`; `originTemplate` is the variadic argument. -/
def AddOpenPage {ρ : Type} (createModule : Panel → ModuleSettings → Simple → ρ)
    (panel : Panel) (name title : GoString) (menu : Option Menu)
    (originTemplate : List Bool) : ρ :=
  let settings : ModuleSettings :=
    { Name := name, Title := title, Menu := menu, DisableAuth := true }
  let settings :=
    if h : originTemplate.length > 0 then
      { settings with OriginTemplate := originTemplate[0] }
    else settings
  AddModule createModule panel settings (Simple.module {})

/-! ## Auxiliary definitions -/

/-- The first block of `correctPath`, on the base path alone. -/
def basePath (s : GoString) : Option GoString :=
  if s.length > 0 then do
    let last ← index s (s.length - 1)
    let s ← (if last = slash then sliceTo s (s.length - 1) else pure s)
    let first ← index s 0
    pure (if first ≠ slash then str "/" ++ s else s)
  else pure s

/-- The second block of `correctPath`, on the default page alone. -/
def defaultPage (d : GoString) : GoString :=
  match d with
  | [] => [slash]
  | c :: r => if c = slash then c :: r else slash :: c :: r

/-- The entries of `Vars` after `setVariables`, from the entries before it. -/
def boundVars (panel : Panel) (m : VarMap) : VarMap :=
  ((((m.set (str "panel") Value.panelRef).set (str "path") (Value.string panel.Path)).set
    (str "title") (Value.string panel.Title)).set
    (str "mainMenu") (Value.menu panel.MainMenu)).set
    (str "dropMenu") (Value.menu panel.DropMenu)

/-- A field of the merged settings: the built-in default `dflt` when the caller left the field
at the zero value `zero`, the caller's value `given` otherwise. -/
def Merged {α : Type} (zero dflt given result : α) : Prop :=
  (given = zero → result = dflt) ∧ (given ≠ zero → result = given)

/-! ## Auxiliary facts on `correctPath` -/

theorem str_slash : str "/" = [slash] := by decide

theorem basePath_nil : basePath [] = some [] := by
  simp [basePath]

theorem basePath_concat (init : GoString) (last : UInt8) :
    basePath (init ++ [last]) =
      match (if last = slash then init else init ++ [last]) with
      | [] => none
      | c :: r => some (if c = slash then c :: r else slash :: c :: r) := by
  rcases init with _ | ⟨c, r⟩ <;>
    simp [basePath, index, sliceTo, str_slash] <;>
    split_ifs <;> simp_all

theorem correctPath_eq (p : Panel) :
    correctPath p = (basePath p.Path).map fun path =>
      { p with Path := path, DefaultPage := defaultPage p.DefaultPage } := by
  rcases p with ⟨⟨a1, a2, a3, a4, dp, path⟩, _⟩
  rcases dp with _ | ⟨d, ds⟩ <;>
    rcases List.eq_nil_or_concat path with h | ⟨init, last, h⟩ <;>
    subst h <;>
    (try rcases init with _ | ⟨c, r⟩) <;>
    (try by_cases hl : last = slash) <;>
    (try by_cases hc : c = slash) <;>
    (try by_cases hd : d = slash) <;>
    simp [correctPath, basePath, defaultPage, index, sliceTo, str_slash, *]

theorem str_slash2 : str "//" = [slash, slash] := by decide

theorem suffix_slash2_concat (init : GoString) (last : UInt8) :
    str "//" <:+ init ++ [last] ↔ last = slash ∧ init.getLast? = some slash := by
  rw [str_slash2, ← List.reverse_prefix]
  rcases List.eq_nil_or_concat init with rfl | ⟨i2, l2, rfl⟩
  · simp [List.cons_prefix_cons]
  · simp [List.cons_prefix_cons]
    exact ⟨fun ⟨a, b⟩ => ⟨a.symm, b.symm⟩, fun ⟨a, b⟩ => ⟨a.symm, b.symm⟩⟩

theorem basePath_eq_none_iff (s : GoString) : basePath s = none ↔ s = str "/" := by
  rw [str_slash]
  rcases List.eq_nil_or_concat s with rfl | ⟨init, last, rfl⟩
  · simp [basePath_nil]
  · rw [List.concat_eq_append, basePath_concat]
    by_cases hl : last = slash <;> rcases init with _ | ⟨c, r⟩ <;> simp [hl]

theorem basePath_normalized (s : GoString)
    (h : s = [] ∨ (s.head? = some slash ∧ s.getLast? ≠ some slash)) : basePath s = some s := by
  rcases List.eq_nil_or_concat s with rfl | ⟨init, last, rfl⟩
  · exact basePath_nil
  · rw [List.concat_eq_append] at h ⊢
    rw [basePath_concat]
    rcases h with h | ⟨h1, h2⟩
    · simp at h
    · have hl : last ≠ slash := by simpa using h2
      rcases init with _ | ⟨c, r⟩
      · simp at h1
        exact absurd h1 hl
      · have hc : c = slash := by simpa using h1
        simp [hl, hc]

theorem basePath_result (s : GoString) (h : s ≠ str "/") :
    ∃ t, basePath s = some t ∧ (s = [] → t = []) ∧ (s ≠ [] → t.head? = some slash) ∧
      (¬ str "//" <:+ s → t.getLast? ≠ some slash) := by
  rw [str_slash] at h
  rcases List.eq_nil_or_concat s with rfl | ⟨init, last, rfl⟩
  · exact ⟨[], basePath_nil, fun _ => rfl, fun h => absurd rfl h, fun _ => by simp⟩
  · rw [List.concat_eq_append] at h ⊢
    rw [basePath_concat, suffix_slash2_concat]
    have hlast : ∀ (c : UInt8) (r : GoString), (c :: (r ++ [last])).getLast? = some last := by
      intro c r
      rw [← List.cons_append, List.getLast?_append]
      rfl
    by_cases hl : last = slash <;> rcases init with _ | ⟨c, r⟩ <;>
      (try by_cases hc : c = slash) <;> simp_all

theorem defaultPage_head (d : GoString) : (defaultPage d).head? = some slash := by
  rcases d with _ | ⟨c, r⟩
  · rfl
  · by_cases hc : c = slash <;> simp [defaultPage, hc]

theorem defaultPage_of_head (d : GoString) (h : d.head? = some slash) : defaultPage d = d := by
  rcases d with _ | ⟨c, r⟩
  · simp at h
  · have hc : c = slash := by simpa using h
    simp [defaultPage, hc]

theorem defaultPage_of_not_head (d : GoString) (h : d.head? ≠ some slash) :
    defaultPage d = str "/" ++ d := by
  rw [str_slash]
  rcases d with _ | ⟨c, r⟩
  · rfl
  · have hc : c ≠ slash := by simpa using h
    simp [defaultPage, hc]

theorem correctPath_some (p : Panel) (h : p.Path ≠ str "/") :
    ∃ t, basePath p.Path = some t ∧
      correctPath p = some { p with Path := t, DefaultPage := defaultPage p.DefaultPage } := by
  obtain ⟨t, ht, -⟩ := basePath_result p.Path h
  exact ⟨t, ht, by rw [correctPath_eq, ht]; rfl⟩

theorem correctPath_eq_none_iff (p : Panel) : correctPath p = none ↔ p.Path = str "/" := by
  rw [correctPath_eq, Option.map_eq_none', basePath_eq_none_iff]

theorem correctPath_normalized (p : Panel)
    (hp : p.Path = [] ∨ (p.Path.head? = some slash ∧ p.Path.getLast? ≠ some slash))
    (hd : p.DefaultPage.head? = some slash) : correctPath p = some p := by
  rw [correctPath_eq, basePath_normalized _ hp, defaultPage_of_head _ hd]
  rfl

/-- On every base path other than `/`, `correctPath` returns; it leaves an empty base path
empty and a non-empty one with a leading slash. -/
theorem correctPath_path_head (p : Panel) (h : p.Path ≠ str "/") :
    ∃ p1, correctPath p = some p1 ∧ (p.Path = [] → p1.Path = []) ∧
      (p.Path ≠ [] → p1.Path.head? = some slash) := by
  obtain ⟨t, ht, hnil, hhead, -⟩ := basePath_result p.Path h
  exact ⟨_, by rw [correctPath_eq, ht]; rfl, hnil, hhead⟩

/-- On every base path other than `/`, `correctPath` returns and leaves a default page with a
leading slash: the given one when it has a leading slash, the given one after a slash
otherwise. -/
theorem correctPath_defaultPage (p : Panel) (h : p.Path ≠ str "/") :
    ∃ p1, correctPath p = some p1 ∧ p1.DefaultPage.head? = some slash ∧
      (p.DefaultPage.head? = some slash → p1.DefaultPage = p.DefaultPage) ∧
      (p.DefaultPage.head? ≠ some slash → p1.DefaultPage = str "/" ++ p.DefaultPage) := by
  obtain ⟨t, -, ht⟩ := correctPath_some p h
  exact ⟨_, ht, defaultPage_head _, defaultPage_of_head _, defaultPage_of_not_head _⟩

/-! ## Auxiliary facts on maps and `setVariables` -/

theorem mapGet_set_same (m : VarMap) (key : GoString) (v : Value) :
    mapGet (some (m.set key v)) key = some v := by
  induction m with
  | nil => simp [VarMap.set, mapGet, VarMap.get]
  | cons e rest ih =>
    rcases e with ⟨k, w⟩
    have ih2 : VarMap.get (VarMap.set rest key v) key = some v := ih
    by_cases hk : k = key <;> simp [VarMap.set, mapGet, VarMap.get, hk, ih2]

theorem mapGet_set_other (m : VarMap) (key other : GoString) (v : Value) (h : other ≠ key) :
    mapGet (some (m.set key v)) other = mapGet (some m) other := by
  induction m with
  | nil => simp [VarMap.set, mapGet, VarMap.get, Ne.symm h]
  | cons e rest ih =>
    rcases e with ⟨k, w⟩
    have ih2 : VarMap.get (VarMap.set rest key v) other = VarMap.get rest other := ih
    by_cases hk : k = key
    · subst hk
      simp [VarMap.set, mapGet, VarMap.get, Ne.symm h]
    · by_cases ho : k = other
      · subst ho
        simp [VarMap.set, mapGet, VarMap.get, hk]
      · simp [VarMap.set, mapGet, VarMap.get, hk, ho, ih2]

theorem setVariables_eq (panel : Panel) :
    setVariables panel =
      some { panel with Vars := some (boundVars panel (panel.Vars.getD [])) } := by
  rcases hv : panel.Vars with _ | m <;>
    simp [setVariables, mapAssign, boundVars, hv]

theorem mapGet_nil (key : GoString) : mapGet (some []) key = mapGet none key := by
  simp [mapGet, VarMap.get]

theorem mapGet_getD (vars : Option VarMap) (key : GoString) :
    mapGet (some (vars.getD [])) key = mapGet vars key := by
  rcases vars with _ | m
  · exact mapGet_nil key
  · rfl

theorem merged_ite {α : Type} [DecidableEq α] (zero dflt given : α) :
    Merged zero dflt given (if given = zero then dflt else given) := by
  constructor <;> intro h <;> simp [h]

/-! ## The claims -/

/-- C1, counterexample: on the base path `/a//` one application of `correctPath` returns the
path `/a/`, and a second application returns the different path `/a`. -/
theorem correctPath_twice_differs :
    correctPath { Path := str "/a//", DefaultPage := str "/settings" } =
        some { Path := str "/a/", DefaultPage := str "/settings" } ∧
      correctPath { Path := str "/a/", DefaultPage := str "/settings" } =
        some { Path := str "/a", DefaultPage := str "/settings" } ∧
      str "/a" ≠ str "/a/" := by
  decide

/-- C1, amended: for every panel whose base path is not `/` and does not end with `//`, and
for every default page, `correctPath` returns, and a second application returns as well and
changes nothing. -/
theorem correctPath_idempotent (p : Panel) (h1 : p.Path ≠ str "/")
    (h2 : ¬ str "//" <:+ p.Path) :
    ∃ p1, correctPath p = some p1 ∧ correctPath p1 = some p1 := by
  obtain ⟨t, ht, hnil, hhead, hlast⟩ := basePath_result p.Path h1
  refine ⟨{ p with Path := t, DefaultPage := defaultPage p.DefaultPage }, ?_, ?_⟩
  · rw [correctPath_eq, ht]
    rfl
  · apply correctPath_normalized
    · by_cases hs : p.Path = []
      · exact Or.inl (hnil hs)
      · exact Or.inr ⟨hhead hs, hlast h2⟩
    · exact defaultPage_head _

/-- C1, amended, at the base path `admin/` and the default page `settings`. -/
theorem correctPath_idempotent_witness :
    str "admin/" ≠ str "/" ∧ ¬ str "//" <:+ str "admin/" ∧
      ∃ p1, correctPath { Path := str "admin/", DefaultPage := str "settings" } = some p1 ∧
        correctPath p1 = some p1 :=
  ⟨by decide, by decide,
    correctPath_idempotent { Path := str "admin/", DefaultPage := str "settings" }
      (by decide) (by decide)⟩

/-- C2, counterexample: on the non-empty base path `a//`, `correctPath` leaves the path `/a/`,
which ends with a slash. -/
theorem correctPath_leaves_trailing_slash :
    correctPath { Path := str "a//", DefaultPage := str "/settings" } =
        some { Path := str "/a/", DefaultPage := str "/settings" } ∧
      (str "/a/").getLast? = some slash := by
  decide

/-- C2, amended: for every non-empty base path other than `/` that does not end with `//`,
`correctPath` returns and the base path it leaves does not end with a slash. -/
theorem correctPath_strips_trailing_slash (p : Panel) (h0 : p.Path ≠ [])
    (h1 : p.Path ≠ str "/") (h2 : ¬ str "//" <:+ p.Path) :
    ∃ p1, correctPath p = some p1 ∧ p1.Path ≠ [] ∧ p1.Path.getLast? ≠ some slash := by
  obtain ⟨t, ht, -, hhead, hlast⟩ := basePath_result p.Path h1
  refine ⟨{ p with Path := t, DefaultPage := defaultPage p.DefaultPage }, ?_, ?_, hlast h2⟩
  · rw [correctPath_eq, ht]
    rfl
  · intro hnil
    have hh := hhead h0
    have hnil2 : t = [] := hnil
    rw [hnil2] at hh
    simp at hh

/-- C2, amended, at the base path `/admin/`. -/
theorem correctPath_strips_trailing_slash_witness :
    str "/admin/" ≠ [] ∧ str "/admin/" ≠ str "/" ∧ ¬ str "//" <:+ str "/admin/" ∧
      ∃ p1, correctPath { Path := str "/admin/", DefaultPage := str "/settings" } = some p1 ∧
        p1.Path ≠ [] ∧ p1.Path.getLast? ≠ some slash :=
  ⟨by decide, by decide, by decide,
    correctPath_strips_trailing_slash { Path := str "/admin/", DefaultPage := str "/settings" }
      (by decide) (by decide) (by decide)⟩

/-- C3, the code at the failing input: on the non-empty base path `/`, `correctPath` panics,
so that it leaves no base path that begins with a slash. -/
theorem correctPath_slash_no_leading_slash :
    ¬ ∃ p1, correctPath { Path := str "/", DefaultPage := str "/settings" } = some p1 ∧
      p1.Path.head? = some slash := by
  decide

/-- C4, the code at the failing input: on the base path `/` and the default page `settings`,
`correctPath` panics before it reaches the default page, so that it leaves no default page
that begins with a slash. -/
theorem correctPath_slash_default_page_untouched :
    ¬ ∃ p1, correctPath { Path := str "/", DefaultPage := str "settings" } = some p1 ∧
      p1.DefaultPage.head? = some slash := by
  decide

/-- C5: for every panel with the base path `/admin/` and the default page `/settings`,
`correctPath` returns with the base path `/admin`, and the target of the root redirect,
`panel.Path + panel.DefaultPage`, is then `/admin/settings`. -/
theorem correctPath_admin (panel : Panel) (hp : panel.Path = str "/admin/")
    (hd : panel.DefaultPage = str "/settings") :
    ∃ p1, correctPath panel = some p1 ∧ p1.Path = str "/admin" ∧
      p1.DefaultPage = str "/settings" ∧ redirectTarget p1 = str "/admin/settings" := by
  refine ⟨{ panel with Path := str "/admin", DefaultPage := str "/settings" }, ?_, rfl, rfl, ?_⟩
  · rw [correctPath_eq, hp, hd]
    rfl
  · show str "/admin" ++ str "/settings" = str "/admin/settings"
    decide

/-- C5, at the panel that `Create` builds from `Settings{Path: "/admin/"}`, whose default page
is the built-in one. -/
theorem correctPath_admin_witness :
    (Create.beforeInit { Path := str "/admin/" }).Path = str "/admin/" ∧
      (Create.beforeInit { Path := str "/admin/" }).DefaultPage = str "/settings" ∧
      ∃ p1, correctPath (Create.beforeInit { Path := str "/admin/" }) = some p1 ∧
        p1.Path = str "/admin" ∧ p1.DefaultPage = str "/settings" ∧
        redirectTarget p1 = str "/admin/settings" :=
  ⟨by decide, by decide,
    correctPath_admin (Create.beforeInit { Path := str "/admin/" }) (by decide) (by decide)⟩

/-- C6: `AddPage` hands to `AddModule` the settings with the given name, title and menu,
`DisableAuth = false` and `OriginTemplate` the first variadic argument (false when there is
none); `AddOpenPage` hands over the same settings except for `DisableAuth = true`. -/
theorem AddPage_AddOpenPage_settings {ρ : Type}
    (createModule : Panel → ModuleSettings → Simple → ρ) (panel : Panel)
    (name title : GoString) (menu : Option Menu) (originTemplate : List Bool) :
    AddPage createModule panel name title menu originTemplate =
        AddModule createModule panel
          { Name := name, Title := title, Menu := menu, DisableAuth := false,
            OriginTemplate := originTemplate.headD false } (Simple.module {}) ∧
      AddOpenPage createModule panel name title menu originTemplate =
        AddModule createModule panel
          { Name := name, Title := title, Menu := menu, DisableAuth := true,
            OriginTemplate := originTemplate.headD false } (Simple.module {}) ∧
      AddOpenPage (fun _ settings _ => settings) panel name title menu originTemplate =
        { AddPage (fun _ settings _ => settings) panel name title menu originTemplate with
          DisableAuth := true } := by
  rcases originTemplate with _ | ⟨b, rest⟩ <;> simp [AddPage, AddOpenPage, AddModule]

/-- C7: in the panel of `Create` before `init`, every field of the settings holds the built-in
default when the caller left it at its zero value, and the caller's value otherwise. -/
theorem Create_merges_settings (s : Settings) :
    Merged 0 8080 s.Port (Create.beforeInit s).Port ∧
      Merged [] (str "Summer Panel") s.Title (Create.beforeInit s).Title ∧
      Merged [] (str "+Af761") s.AuthSalt (Create.beforeInit s).AuthSalt ∧
      Merged [] (str "adm-summer-") s.AuthPrefix (Create.beforeInit s).AuthPrefix ∧
      Merged [] (str "/settings") s.DefaultPage (Create.beforeInit s).DefaultPage ∧
      Merged [] (str "") s.Path (Create.beforeInit s).Path ∧
      Merged [] (str "templates/main") s.Views (Create.beforeInit s).Views ∧
      Merged [] (str "templates/doT.js") s.ViewsDoT (Create.beforeInit s).ViewsDoT ∧
      Merged [] (str "files") s.Files (Create.beforeInit s).Files ∧
      Merged [] (str "summerPanel") s.DBName (Create.beforeInit s).DBName ∧
      Merged [] (str "admins") s.UsersCollection (Create.beforeInit s).UsersCollection ∧
      Merged [] (str "") s.NotifyCollection (Create.beforeInit s).NotifyCollection ∧
      Merged [] (str "ai") s.AICollection (Create.beforeInit s).AICollection ∧
      Merged false false s.Debug (Create.beforeInit s).Debug ∧
      Merged none (some []) s.Vars (Create.beforeInit s).Vars ∧
      Merged none none s.TFuncMap (Create.beforeInit s).TFuncMap ∧
      Merged none (some Func.noop) s.FirstStart (Create.beforeInit s).FirstStart ∧
      Merged false false s.DisableAuth (Create.beforeInit s).DisableAuth ∧
      Merged false false s.DisableFirstStart (Create.beforeInit s).DisableFirstStart ∧
      Merged none none s.JS (Create.beforeInit s).JS ∧
      Merged none none s.CSS (Create.beforeInit s).CSS ∧
      Merged none none s.RouterGroup (Create.beforeInit s).RouterGroup ∧
      Merged none (some (Create.engine s)) s.Engine (Create.beforeInit s).Engine := by
  refine ⟨?_, ?_, ?_, ?_, ?_, ?_, ?_, ?_, ?_, ?_, ?_, ?_, ?_, ?_, ?_, ?_, ?_, ?_, ?_, ?_, ?_,
    ?_, ?_⟩ <;> exact merged_ite _ _ _

/-- C8, the code at the failing input: on the base path `/` the last byte is a slash, the
slice `Path[:len(Path)-1]` is the empty string, and the index `Path[0]` evaluated next is out of
range, so that `correctPath` panics; the base path `/` is the only one on which it does. -/
theorem correctPath_panics_on_slash :
    index (str "/") ((str "/").length - 1) = some slash ∧
      sliceTo (str "/") ((str "/").length - 1) = some [] ∧
      index [] 0 = none ∧
      correctPath { Path := str "/", DefaultPage := str "/settings" } = none ∧
      ∀ p : Panel, correctPath p = none ↔ p.Path = str "/" :=
  ⟨by decide, by decide, by decide, by decide, correctPath_eq_none_iff⟩

/-- C9: on a panel whose base path is empty, or begins with a slash and does not end with
one, and whose default page begins with a slash, `correctPath` returns the panel unchanged. -/
theorem correctPath_identity_on_normalized (p : Panel)
    (hp : p.Path = [] ∨ (p.Path.head? = some slash ∧ p.Path.getLast? ≠ some slash))
    (hd : p.DefaultPage.head? = some slash) : correctPath p = some p :=
  correctPath_normalized p hp hd

/-- C9, at the base path `/admin` and at the empty base path, with the default page
`/settings`. -/
theorem correctPath_identity_on_normalized_witness :
    correctPath { Path := str "/admin", DefaultPage := str "/settings" } =
        some { Path := str "/admin", DefaultPage := str "/settings" } ∧
      correctPath { Path := str "", DefaultPage := str "/settings" } =
        some { Path := str "", DefaultPage := str "/settings" } :=
  ⟨correctPath_identity_on_normalized { Path := str "/admin", DefaultPage := str "/settings" }
      (Or.inr (by decide)) (by decide),
    correctPath_identity_on_normalized { Path := str "", DefaultPage := str "/settings" }
      (Or.inl (by decide)) (by decide)⟩

/-- The method `setVariables` returns on every panel, also one whose `Vars` is nil, and changes
`Vars` only; afterwards `Vars` maps `panel` to the panel reference, `path`, `title`, `mainMenu`
and `dropMenu` to the panel's `Path`, `Title`, `MainMenu` and `DropMenu`, and every other key
to what it was mapped to before. In `init`, where `correctPath` runs first, `path` is mapped
to the base path that `correctPath` left, on every base path other than `/`. -/
theorem setVariables_binds (panel : Panel) :
    ∃ p1, setVariables panel = some p1 ∧
      p1 = { panel with Vars := p1.Vars } ∧
      mapGet p1.Vars (str "panel") = some Value.panelRef ∧
      mapGet p1.Vars (str "path") = some (Value.string panel.Path) ∧
      mapGet p1.Vars (str "title") = some (Value.string panel.Title) ∧
      mapGet p1.Vars (str "mainMenu") = some (Value.menu panel.MainMenu) ∧
      mapGet p1.Vars (str "dropMenu") = some (Value.menu panel.DropMenu) ∧
      (∀ key, key ∉ reservedKeys → mapGet p1.Vars key = mapGet panel.Vars key) ∧
      (panel.Path ≠ str "/" →
        ∃ p2 p3, correctPath panel = some p2 ∧ initPathVars panel = some p3 ∧
          p3.Path = p2.Path ∧ mapGet p3.Vars (str "path") = some (Value.string p2.Path)) := by
  have hget : ∀ q : Panel,
      mapGet (some (boundVars q (q.Vars.getD []))) (str "path") = some (Value.string q.Path) := by
    intro q
    unfold boundVars
    rw [mapGet_set_other _ _ _ _ (by decide), mapGet_set_other _ _ _ _ (by decide),
      mapGet_set_other _ _ _ _ (by decide), mapGet_set_same]
  refine ⟨_, setVariables_eq panel, rfl, ?_, hget panel, ?_, ?_, ?_, ?_, ?_⟩
  · show mapGet (some (boundVars panel (panel.Vars.getD []))) _ = _
    unfold boundVars
    rw [mapGet_set_other _ _ _ _ (by decide), mapGet_set_other _ _ _ _ (by decide),
      mapGet_set_other _ _ _ _ (by decide), mapGet_set_other _ _ _ _ (by decide),
      mapGet_set_same]
  · show mapGet (some (boundVars panel (panel.Vars.getD []))) _ = _
    unfold boundVars
    rw [mapGet_set_other _ _ _ _ (by decide), mapGet_set_other _ _ _ _ (by decide),
      mapGet_set_same]
  · show mapGet (some (boundVars panel (panel.Vars.getD []))) _ = _
    unfold boundVars
    rw [mapGet_set_other _ _ _ _ (by decide), mapGet_set_same]
  · show mapGet (some (boundVars panel (panel.Vars.getD []))) _ = _
    unfold boundVars
    rw [mapGet_set_same]
  · intro key hkey
    show mapGet (some (boundVars panel (panel.Vars.getD []))) _ = _
    simp only [reservedKeys, List.mem_cons, List.mem_singleton, List.not_mem_nil, or_false,
      not_or] at hkey
    obtain ⟨k1, k2, k3, k4, k5⟩ := hkey
    unfold boundVars
    rw [mapGet_set_other _ _ _ _ k5, mapGet_set_other _ _ _ _ k4, mapGet_set_other _ _ _ _ k3,
      mapGet_set_other _ _ _ _ k2, mapGet_set_other _ _ _ _ k1, mapGet_getD]
  · intro hpath
    obtain ⟨t, -, ht⟩ := correctPath_some panel hpath
    generalize { panel with Path := t, DefaultPage := defaultPage panel.DefaultPage } = q at ht
    refine ⟨q, { q with Vars := some (boundVars q (q.Vars.getD [])) }, ht, ?_, rfl, hget q⟩
    simp only [initPathVars, ht, Option.bind_eq_bind, Option.some_bind]
    exact setVariables_eq q

/-- C10, the code at the failing input: on a panel with the base path `/`, the statements
`panel.correctPath()` and `panel.setVariables()` of `init` panic in `correctPath`, so that
`setVariables` is not reached and `Vars` is left without an entry under `path`, although
`setVariables` alone returns on that panel. -/
theorem initPathVars_panics_on_slash :
    correctPath { Path := str "/", DefaultPage := str "/settings", Vars := some [] } = none ∧
      initPathVars { Path := str "/", DefaultPage := str "/settings", Vars := some [] } = none ∧
      mapGet (some []) (str "path") = none ∧
      (setVariables { Path := str "/", DefaultPage := str "/settings", Vars := some [] }).isSome =
        true := by
  decide

end Summer
